import Mathlib

/-!
Verification of the vision-stack targeting and control core.

Shallow embedding of the Python sources under `src/vision_stack/src/`:

* `common/filters.py` — `EMAFilter`, `SlewRateLimiter`, `clamp`, `deadband`
* `common/types.py` — `Setpoint`, `Errors`, `Track`, `LockStatus`, `LockState`
* `control/safety_manager.py` — `SafetyManager`
* `control/control_mapper.py` — `ControlMapper`
* `targeting/lock_manager.py` — `LockManager`
* `mavlink/failsafe.py` — `FailsafeManager`

Python floats are modelled as exact rationals (`ℚ`); every arithmetic
operation used by the embedded code (+, −, ·, comparison, abs) is exact
in both worlds for the inputs considered.  Wall-clock reads
(`time.time()`) are modelled by passing the current time explicitly to
each stateful step.  Methods that mutate `self` are modelled as
functions from the old state to a result paired with the new state.
-/

namespace VisionStack

/-- Control setpoint for the flight controller (`common/types.py`,
`Setpoint`).  The `timestamp` field carries no control semantics and is
omitted. -/
structure Setpoint where
  roll_deg : ℚ
  pitch_deg : ℚ
  thrust : ℚ
  yaw_deg : ℚ
deriving DecidableEq, Repr

/-- Neutral (all-zero) setpoint (`Setpoint.neutral`). -/
def Setpoint.neutral : Setpoint :=
  { roll_deg := 0, pitch_deg := 0, thrust := 0, yaw_deg := 0 }

/-- Clamp value to the range given by the two bounds
(`common/filters.py`, `clamp`): `max(min_val, min(max_val, value))`. -/
def clamp (value min_val max_val : ℚ) : ℚ :=
  max min_val (min max_val value)

/-- Deadband (`common/filters.py`, `deadband`): values whose absolute
value is strictly below the threshold become zero, others pass
through. -/
def deadband (value threshold : ℚ) : ℚ :=
  if |value| < threshold then 0 else value

/-- Exponential moving average filter state (`common/filters.py`,
`EMAFilter`).  `value` is `None` until the first update. -/
structure EMAFilter where
  alpha : ℚ
  value : Option ℚ := none
deriving DecidableEq, Repr

/-- EMA update (`EMAFilter.update`): the first sample is returned
unchanged; afterwards `value ← alpha·x + (1−alpha)·value`.  Returns the
filtered output together with the new filter state. -/
def EMAFilter.update (f : EMAFilter) (value : ℚ) : ℚ × EMAFilter :=
  match f.value with
  | none => (value, { f with value := some value })
  | some v =>
    let nv := f.alpha * value + (1 - f.alpha) * v
    (nv, { f with value := some nv })

/-- Slew-rate limiter state (`common/filters.py`, `SlewRateLimiter`).
Both `last_value` and `last_time` are `None` until the first update. -/
structure SlewRateLimiter where
  max_rate : ℚ
  last_value : Option ℚ := none
  last_time : Option ℚ := none
deriving DecidableEq, Repr

/-- Slew-rate limiter update (`SlewRateLimiter.update` called with
`dt=None`, as the safety manager always does, so `dt` is derived from
the wall clock).  `current_time` models the `time.time()` read.  The
first update stores and returns the value unlimited; later updates
bound the change by `max_rate · dt` and a non-positive `dt` returns the
stored value unchanged. -/
def SlewRateLimiter.update (s : SlewRateLimiter) (value current_time : ℚ) :
    ℚ × SlewRateLimiter :=
  match s.last_value, s.last_time with
  | some lv, some lt =>
    let dt := current_time - lt
    if dt ≤ 0 then
      (lv, s)
    else
      let max_change := s.max_rate * dt
      let delta := value - lv
      let delta' := if |delta| > max_change
        then (if delta > 0 then max_change else -max_change)
        else delta
      let nv := lv + delta'
      (nv, { s with last_value := some nv, last_time := some current_time })
  | _, _ =>
    (value, { s with last_value := some value, last_time := some current_time })

/-- Safety manager configuration (`control/safety_manager.py`,
`SafetyConfig`), with the source's defaults. -/
structure SafetyConfig where
  roll_ema_alpha : ℚ := 3/10
  pitch_ema_alpha : ℚ := 3/10
  roll_slew_rate_deg_s : ℚ := 30
  pitch_slew_rate_deg_s : ℚ := 20
  roll_limit_deg : ℚ := 20
  pitch_limit_deg : ℚ := 10
  track_timeout_ms : ℚ := 500
  telemetry_timeout_ms : ℚ := 1000
  bench_mode : Bool := true
deriving DecidableEq, Repr

/-- Safety manager state (`control/safety_manager.py`,
`SafetyManager.__init__`). -/
structure SafetyManager where
  config : SafetyConfig
  roll_ema : EMAFilter
  pitch_ema : EMAFilter
  roll_slew : SlewRateLimiter
  pitch_slew : SlewRateLimiter
  last_valid_time : Option ℚ := none
  last_telemetry_time : Option ℚ := none
  failsafe_active : Bool := false
deriving DecidableEq, Repr

/-- Freshly initialized safety manager (`SafetyManager.__init__`). -/
def SafetyManager.init (config : SafetyConfig) : SafetyManager :=
  { config := config
    roll_ema := { alpha := config.roll_ema_alpha }
    pitch_ema := { alpha := config.pitch_ema_alpha }
    roll_slew := { max_rate := config.roll_slew_rate_deg_s }
    pitch_slew := { max_rate := config.pitch_slew_rate_deg_s } }

/-- Validity gates (`SafetyManager._check_gates`), evaluated in source
order with early exit: lock validity, track freshness, track timeout
(strictly greater than `track_timeout_ms`), telemetry timeout (only
checked when telemetry is not fresh). -/
def SafetyManager.checkGates (sm : SafetyManager)
    (lock_valid track_fresh telemetry_fresh : Bool) (current_time : ℚ) : Bool :=
  if !lock_valid then false
  else if !track_fresh then false
  else if (match sm.last_valid_time with
    | some lvt => decide ((current_time - lvt) * 1000 > sm.config.track_timeout_ms)
    | none => false) then false
  else if (!telemetry_fresh && (match sm.last_telemetry_time with
    | some ltt => decide ((current_time - ltt) * 1000 > sm.config.telemetry_timeout_ms)
    | none => false)) then false
  else true

/-- Failsafe setpoint (`SafetyManager._get_failsafe_setpoint`): latch
`failsafe_active`, slew roll and pitch toward zero, thrust and yaw are
zero.  There is no clamp on this path. -/
def SafetyManager.getFailsafeSetpoint (sm : SafetyManager) (current_time : ℚ) :
    Setpoint × SafetyManager :=
  let sm1 := { sm with failsafe_active := true }
  let rollStep := sm1.roll_slew.update 0 current_time
  let pitchStep := sm1.pitch_slew.update 0 current_time
  ({ roll_deg := rollStep.1, pitch_deg := pitchStep.1, thrust := 0, yaw_deg := 0 },
   { sm1 with roll_slew := rollStep.2, pitch_slew := pitchStep.2 })

/-- Whether a call to `apply` at `current_time` takes the gates-pass
path, after the telemetry-timestamp refresh that `apply` performs
before `_check_gates`. -/
def SafetyManager.gatesPass (sm : SafetyManager)
    (lock_valid track_fresh telemetry_fresh : Bool) (current_time : ℚ) : Bool :=
  let sm1 := if telemetry_fresh
    then { sm with last_telemetry_time := some current_time } else sm
  sm1.checkGates lock_valid track_fresh telemetry_fresh current_time

/-- Safety pipeline step (`SafetyManager.apply`): refresh the telemetry
timestamp, check the gates (failsafe setpoint if they fail), then EMA
filter, slew-rate limit, clamp roll and pitch, and force thrust to zero
in bench mode.  `current_time` models the `time.time()` read. -/
def SafetyManager.apply (sm : SafetyManager) (setpoint : Setpoint)
    (lock_valid track_fresh telemetry_fresh : Bool) (current_time : ℚ) :
    Setpoint × SafetyManager :=
  let sm1 := if telemetry_fresh
    then { sm with last_telemetry_time := some current_time } else sm
  if !(sm1.checkGates lock_valid track_fresh telemetry_fresh current_time) then
    sm1.getFailsafeSetpoint current_time
  else
    let sm2 := { sm1 with last_valid_time := some current_time, failsafe_active := false }
    let rollEmaStep := sm2.roll_ema.update setpoint.roll_deg
    let pitchEmaStep := sm2.pitch_ema.update setpoint.pitch_deg
    let rollSlewStep := sm2.roll_slew.update rollEmaStep.1 current_time
    let pitchSlewStep := sm2.pitch_slew.update pitchEmaStep.1 current_time
    let roll_clamped := clamp rollSlewStep.1
      (-sm2.config.roll_limit_deg) sm2.config.roll_limit_deg
    let pitch_clamped := clamp pitchSlewStep.1
      (-sm2.config.pitch_limit_deg) sm2.config.pitch_limit_deg
    let thrust : ℚ := if sm2.config.bench_mode then 0 else setpoint.thrust
    ({ roll_deg := roll_clamped, pitch_deg := pitch_clamped,
       thrust := thrust, yaw_deg := setpoint.yaw_deg },
     { sm2 with roll_ema := rollEmaStep.2, pitch_ema := pitchEmaStep.2,
                roll_slew := rollSlewStep.2, pitch_slew := pitchSlewStep.2 })

/-- Force-neutral (`SafetyManager.force_neutral`): snap the EMA filters
and slew limiters to zero (the slew limiters also record the current
time, as `SlewRateLimiter.reset(0.0)` does) and return the neutral
setpoint. -/
def SafetyManager.forceNeutral (sm : SafetyManager) (current_time : ℚ) :
    Setpoint × SafetyManager :=
  (Setpoint.neutral,
   { sm with
       roll_ema := { sm.roll_ema with value := some 0 }
       pitch_ema := { sm.pitch_ema with value := some 0 }
       roll_slew := { sm.roll_slew with last_value := some 0, last_time := some current_time }
       pitch_slew := { sm.pitch_slew with last_value := some 0, last_time := some current_time } })

/-- Control loop gains (`control/control_mapper.py`, `ControlGains`),
with the source's defaults. -/
structure ControlGains where
  yaw_to_roll : ℚ := 30
  pitch_to_pitch : ℚ := 20
  range_to_thrust : ℚ := 1/20
deriving DecidableEq, Repr

/-- Control output limits (`control/control_mapper.py`,
`ControlLimits`), with the source's defaults. -/
structure ControlLimits where
  roll_min_deg : ℚ := -20
  roll_max_deg : ℚ := 20
  pitch_min_deg : ℚ := -10
  pitch_max_deg : ℚ := 10
  thrust_min : ℚ := 0
  thrust_max : ℚ := 1
deriving DecidableEq, Repr

/-- Control configuration (`control/control_mapper.py`,
`ControlConfig`), with the source's defaults. -/
structure ControlConfig where
  gains : ControlGains
  limits : ControlLimits
  thrust_enabled : Bool := false
  yaw_deadband_rad : ℚ := 1/50
  pitch_deadband_rad : ℚ := 1/50
  range_deadband_m : ℚ := 1/2
deriving DecidableEq, Repr

/-- Tracking errors (`common/types.py`, `Errors`); the `timestamp`
field carries no control semantics and is omitted. -/
structure Errors where
  yaw_error : ℚ
  pitch_error : ℚ
  range_error : ℚ
  track_valid : Bool := false
  depth_valid : Bool := false
  lock_valid : Bool := false
deriving DecidableEq, Repr

/-- Deadband as the mapper implements it
(`ControlMapper._apply_deadband`): identical in behaviour to
`filters.deadband`. -/
def ControlMapper.applyDeadband (value threshold : ℚ) : ℚ :=
  if |value| < threshold then 0 else value

/-- Error-to-setpoint map (`ControlMapper.map`): neutral when the lock
or track validity flag is unset; otherwise deadbands, proportional
gains, and clamps.  Yaw is always zero (handled via roll for
fixed-wing). -/
def ControlMapper.map (config : ControlConfig) (errors : Errors) : Setpoint :=
  if !errors.lock_valid || !errors.track_valid then
    Setpoint.neutral
  else
    let yaw_error := ControlMapper.applyDeadband errors.yaw_error config.yaw_deadband_rad
    let pitch_error := ControlMapper.applyDeadband errors.pitch_error config.pitch_deadband_rad
    let range_error := if errors.depth_valid
      then ControlMapper.applyDeadband errors.range_error config.range_deadband_m
      else 0
    let roll_deg := yaw_error * config.gains.yaw_to_roll
    let pitch_deg := pitch_error * config.gains.pitch_to_pitch
    let thrust : ℚ := if config.thrust_enabled && errors.depth_valid
      then range_error * config.gains.range_to_thrust
      else 0
    let roll_deg := clamp roll_deg config.limits.roll_min_deg config.limits.roll_max_deg
    let pitch_deg := clamp pitch_deg config.limits.pitch_min_deg config.limits.pitch_max_deg
    let thrust := clamp thrust config.limits.thrust_min config.limits.thrust_max
    { roll_deg := roll_deg, pitch_deg := pitch_deg, thrust := thrust, yaw_deg := 0 }

/-- Bounding box in pixel coordinates (`common/types.py`,
`BoundingBox`). -/
structure BoundingBox where
  x1 : ℚ
  y1 : ℚ
  x2 : ℚ
  y2 : ℚ
deriving DecidableEq, Repr

/-- Center point of a bounding box (`BoundingBox.center`). -/
def BoundingBox.center (b : BoundingBox) : ℚ × ℚ :=
  ((b.x1 + b.x2) / 2, (b.y1 + b.y2) / 2)

/-- Tracked object (`common/types.py`, `Track`).  The fields the lock
manager reads are `track_id` and `bbox`; `class_id`, `label`,
`confidence`, `timestamp` and `velocity` are payload it never touches
and are omitted. -/
structure Track where
  track_id : ℤ
  bbox : BoundingBox
deriving DecidableEq, Repr

/-- Lock status (`common/types.py`, `LockStatus`). -/
inductive LockStatus where
  | UNLOCKED
  | LOCKING
  | LOCKED
  | LOST
deriving DecidableEq, Repr

/-- Lock state snapshot (`common/types.py`, `LockState`); the dataclass
defaults are `None`/`0` for the optional fields. -/
structure LockState where
  status : LockStatus
  locked_track_id : Option ℤ := none
  lock_timestamp : Option ℚ := none
  frames_since_lock : ℤ := 0
deriving DecidableEq, Repr

/-- Lock manager configuration (`targeting/lock_manager.py`,
`LockConfig`), with the source's defaults. -/
structure LockConfig where
  lock_timeout_ms : ℚ := 500
  reacquire_timeout_ms : ℚ := 2000
  iou_threshold : ℚ := 3/10
  max_pixel_distance : ℚ := 100
deriving DecidableEq, Repr

/-- Lock manager state (`targeting/lock_manager.py`,
`LockManager.__init__`). -/
structure LockManager where
  config : LockConfig
  locked_track_id : Option ℤ := none
  lock_timestamp : Option ℚ := none
  last_seen_timestamp : Option ℚ := none
  lock_bbox : Option BoundingBox := none
  status : LockStatus := LockStatus.UNLOCKED
  frames_locked : ℤ := 0
deriving DecidableEq, Repr

/-- Lock onto a specific track (`LockManager._lock_to_track`);
`current_time` models the two `time.time()` reads. -/
def LockManager.lockToTrack (lm : LockManager) (track : Track) (current_time : ℚ) :
    LockManager :=
  { lm with
      locked_track_id := some track.track_id
      lock_timestamp := some current_time
      last_seen_timestamp := some current_time
      lock_bbox := some track.bbox
      status := LockStatus.LOCKED
      frames_locked := 0 }

/-- Selection by track id (`LockManager.select_by_id`): scan the list
in order for the first track with the requested id; lock to it and
report success, otherwise report failure leaving the state alone. -/
def LockManager.selectById (lm : LockManager) (track_id : ℤ) (tracks : List Track)
    (current_time : ℚ) : Bool × LockManager :=
  match tracks.find? (fun tr => tr.track_id == track_id) with
  | some track => (true, lm.lockToTrack track current_time)
  | none => (false, lm)

/-- Containment test of `LockManager.select_by_pixel`:
`bbox.x1 <= u <= bbox.x2 and bbox.y1 <= v <= bbox.y2`. -/
def containsPt (u v : ℚ) (tr : Track) : Prop :=
  tr.bbox.x1 ≤ u ∧ u ≤ tr.bbox.x2 ∧ tr.bbox.y1 ≤ v ∧ v ≤ tr.bbox.y2

instance (u v : ℚ) (tr : Track) : Decidable (containsPt u v tr) :=
  inferInstanceAs (Decidable (tr.bbox.x1 ≤ u ∧ u ≤ tr.bbox.x2 ∧ tr.bbox.y1 ≤ v ∧ v ≤ tr.bbox.y2))

/-- Squared distance from the click to a track's bbox center
(the source's `((u - cx)**2 + (v - cy)**2)**0.5`, kept squared:
squared distances order exactly as the Euclidean ones do). -/
def centerDistSq (u v : ℚ) (tr : Track) : ℚ :=
  (u - tr.bbox.center.1) ^ 2 + (v - tr.bbox.center.2) ^ 2

/-- Loop body of `LockManager.select_by_pixel`: walk the track list
keeping the best candidate so far as `some (track, squaredDistance)`
(`none` models the initial `best_track=None, best_distance=inf` pair);
a track whose bbox contains the click is taken immediately (`break`)
with distance zero, otherwise a track replaces the best only when its
center is strictly closer. -/
def selectByPixelLoop (u v : ℚ) : List Track → Option (Track × ℚ) → Option (Track × ℚ)
  | [], best => best
  | track :: rest, best =>
    if containsPt u v track then
      some (track, 0)
    else
      let dsq := centerDistSq u v track
      let best' := match best with
        | none => some (track, dsq)
        | some (bt, bd) => if dsq < bd then some (track, dsq) else some (bt, bd)
      selectByPixelLoop u v rest best'

/-- Selection by pixel click (`LockManager.select_by_pixel`): empty
list fails; otherwise run the loop and lock to the best candidate
provided its distance is within `max_pixel_distance`.  The source
compares `best_distance <= max_pixel_distance` on Euclidean distances;
on squared distances this is `0 ≤ max ∧ dsq ≤ max²`. -/
def LockManager.selectByPixel (lm : LockManager) (u v : ℚ) (tracks : List Track)
    (current_time : ℚ) : Bool × LockManager :=
  if tracks.isEmpty then (false, lm)
  else
    match selectByPixelLoop u v tracks none with
    | some (best_track, best_dsq) =>
      if 0 ≤ lm.config.max_pixel_distance ∧
          best_dsq ≤ lm.config.max_pixel_distance ^ 2 then
        (true, lm.lockToTrack best_track current_time)
      else
        (false, lm)
    | none => (false, lm)

/-- Clear the lock (`LockManager.clear_lock`). -/
def LockManager.clearLock (lm : LockManager) : LockManager :=
  { lm with
      locked_track_id := none
      lock_timestamp := none
      last_seen_timestamp := none
      lock_bbox := none
      status := LockStatus.UNLOCKED
      frames_locked := 0 }

/-- Per-frame lock update (`LockManager.update`).  Returns `none` in
the state where the source would raise a `TypeError` (locked id set
but `last_seen_timestamp` is `None` and the locked id is absent — a
state the class API never produces).  Otherwise returns the reported
`LockState` together with the new manager state: refresh on sight;
on a miss classify by elapsed ms since last seen against
`lock_timeout_ms` and `reacquire_timeout_ms`. -/
def LockManager.update (lm : LockManager) (tracks : List Track) (current_time : ℚ) :
    Option (LockState × LockManager) :=
  match lm.locked_track_id with
  | none => some ({ status := LockStatus.UNLOCKED }, lm)
  | some lid =>
    match tracks.find? (fun tr => tr.track_id == lid) with
    | some found =>
      let lm1 := { lm with
        last_seen_timestamp := some current_time
        lock_bbox := some found.bbox
        status := LockStatus.LOCKED
        frames_locked := lm.frames_locked + 1 }
      some ({ status := lm1.status, locked_track_id := lm1.locked_track_id,
              lock_timestamp := lm1.lock_timestamp,
              frames_since_lock := lm1.frames_locked }, lm1)
    | none =>
      match lm.last_seen_timestamp with
      | none => none
      | some last_seen =>
        let time_since_seen := (current_time - last_seen) * 1000
        if time_since_seen < lm.config.lock_timeout_ms then
          let lm1 := { lm with status := LockStatus.LOCKING }
          some ({ status := lm1.status, locked_track_id := lm1.locked_track_id,
                  lock_timestamp := lm1.lock_timestamp,
                  frames_since_lock := lm1.frames_locked }, lm1)
        else if time_since_seen < lm.config.reacquire_timeout_ms then
          let lm1 := { lm with status := LockStatus.LOST }
          some ({ status := lm1.status, locked_track_id := lm1.locked_track_id,
                  lock_timestamp := lm1.lock_timestamp,
                  frames_since_lock := lm1.frames_locked }, lm1)
        else
          some ({ status := LockStatus.UNLOCKED }, lm.clearLock)

/-- Failsafe states (`mavlink/failsafe.py`, `FailsafeState`). -/
inductive FailsafeState where
  | NOMINAL
  | WARNING
  | FAILSAFE
  | RECOVERY
deriving DecidableEq, Repr

/-- Failsafe configuration (`mavlink/failsafe.py`, `FailsafeConfig`),
with the source's defaults; the `action` field is never read by the
state machine and is omitted. -/
structure FailsafeConfig where
  track_lost_warning_ms : ℚ := 250
  track_lost_failsafe_ms : ℚ := 500
  telemetry_lost_warning_ms : ℚ := 500
  telemetry_lost_failsafe_ms : ℚ := 1000
  recovery_confirmation_ms : ℚ := 500
deriving DecidableEq, Repr

/-- Failsafe manager state (`mavlink/failsafe.py`,
`FailsafeManager.__init__`). -/
structure FailsafeManager where
  config : FailsafeConfig
  state : FailsafeState := FailsafeState.NOMINAL
  failsafe_entry_time : Option ℚ := none
  recovery_start_time : Option ℚ := none
  last_track_valid_time : Option ℚ := none
  last_telemetry_time : Option ℚ := none
deriving DecidableEq, Repr

/-- Test whether elapsed milliseconds since `last` meet `threshold`
(`FailsafeManager._elapsed_ms` composed with a `≥` comparison):
a `None` timestamp elapses to `float('inf')`, which exceeds any
finite threshold. -/
def elapsedMsGE (last : Option ℚ) (current_time threshold : ℚ) : Bool :=
  match last with
  | none => true
  | some lt => decide ((current_time - lt) * 1000 ≥ threshold)

/-- Target-state evaluation (`FailsafeManager._evaluate_conditions`). -/
def FailsafeManager.evaluateConditions (fm : FailsafeManager) (current_time : ℚ) :
    FailsafeState :=
  let track_failsafe := elapsedMsGE fm.last_track_valid_time current_time
    fm.config.track_lost_failsafe_ms
  let telem_failsafe := elapsedMsGE fm.last_telemetry_time current_time
    fm.config.telemetry_lost_failsafe_ms
  if track_failsafe || telem_failsafe then
    FailsafeState.FAILSAFE
  else
    let track_warning := elapsedMsGE fm.last_track_valid_time current_time
      fm.config.track_lost_warning_ms
    let telem_warning := elapsedMsGE fm.last_telemetry_time current_time
      fm.config.telemetry_lost_warning_ms
    if track_warning || telem_warning then
      FailsafeState.WARNING
    else
      FailsafeState.NOMINAL

/-- Transition step (`FailsafeManager._transition`): returns the new
state together with the updated entry/recovery bookkeeping times. -/
def FailsafeManager.transition (fm : FailsafeManager) (target : FailsafeState)
    (current_time : ℚ) : FailsafeState × FailsafeManager :=
  match fm.state with
  | FailsafeState.NOMINAL =>
    if target = FailsafeState.WARNING then
      (FailsafeState.WARNING, fm)
    else if target = FailsafeState.FAILSAFE then
      (FailsafeState.FAILSAFE, { fm with failsafe_entry_time := some current_time })
    else (fm.state, fm)
  | FailsafeState.WARNING =>
    if target = FailsafeState.NOMINAL then
      (FailsafeState.NOMINAL, fm)
    else if target = FailsafeState.FAILSAFE then
      (FailsafeState.FAILSAFE, { fm with failsafe_entry_time := some current_time })
    else (fm.state, fm)
  | FailsafeState.FAILSAFE =>
    if target = FailsafeState.NOMINAL ∨ target = FailsafeState.WARNING then
      (FailsafeState.RECOVERY, { fm with recovery_start_time := some current_time })
    else (fm.state, fm)
  | FailsafeState.RECOVERY =>
    if target = FailsafeState.FAILSAFE then
      (FailsafeState.FAILSAFE, { fm with recovery_start_time := none })
    else if target = FailsafeState.NOMINAL then
      match fm.recovery_start_time with
      | some rstart =>
        if (current_time - rstart) * 1000 ≥ fm.config.recovery_confirmation_ms then
          (FailsafeState.NOMINAL, { fm with recovery_start_time := none })
        else (fm.state, fm)
      | none => (fm.state, fm)
    else (fm.state, fm)

/-- Failsafe update (`FailsafeManager.update`): refresh the last-valid
timestamps, evaluate the target state, run one transition, store and
return the new state. -/
def FailsafeManager.update (fm : FailsafeManager)
    (track_valid telemetry_valid lock_valid : Bool) (current_time : ℚ) :
    FailsafeState × FailsafeManager :=
  let fm1 := if track_valid && lock_valid
    then { fm with last_track_valid_time := some current_time } else fm
  let fm2 := if telemetry_valid
    then { fm1 with last_telemetry_time := some current_time } else fm1
  let target := fm2.evaluateConditions current_time
  let step := fm2.transition target current_time
  (step.1, { step.2 with state := step.1 })

/-! Concrete instances used by the witness and counterexample
theorems below. -/

/-- Safety manager freshly initialized with the default configuration
(`bench_mode=true`, roll limit 20°, roll slew rate 30°/s). -/
def benchSafetyManager : SafetyManager := SafetyManager.init {}

/-- First pipeline step: a raw roll request of 100° with all gates
valid, at time 0.  The output is clamped to 20°, but the slew
limiter's internal state is left at 100°. -/
def spikeOutput : Setpoint × SafetyManager :=
  benchSafetyManager.apply
    { roll_deg := 100, pitch_deg := 0, thrust := 1, yaw_deg := 0 } true true true 0

/-- Second pipeline step one second later with the lock invalid: the
failsafe path slews from 100° toward 0° (reaching 70°) and returns the
slewed value without any clamp. -/
def failsafeOutput : Setpoint × SafetyManager :=
  spikeOutput.2.apply
    { roll_deg := 0, pitch_deg := 0, thrust := 0, yaw_deg := 0 } false true true 1

/-- Failsafe manager sitting in the FAILSAFE state. -/
def failsafeManagerStuck : FailsafeManager :=
  { config := {}, state := FailsafeState.FAILSAFE }

/-- Errors value whose `lock_valid` flag is false (the dataclass
default). -/
def invalidErrors : Errors := { yaw_error := 1, pitch_error := -1, range_error := 3 }

/-- Control configuration with all defaults. -/
def defaultControlConfig : ControlConfig := { gains := {}, limits := {} }

/-- First track of the pixel-selection tie: id 5, bbox `[0,10]²`. -/
def pixelTrackFirst : Track :=
  { track_id := 5, bbox := { x1 := 0, y1 := 0, x2 := 10, y2 := 10 } }

/-- Second track of the pixel-selection tie: id 3, same bbox, so the
pixel `(5,5)` is inside both boxes and id 3 is the lower id. -/
def pixelTrackSecond : Track :=
  { track_id := 3, bbox := { x1 := 0, y1 := 0, x2 := 10, y2 := 10 } }

/-- Lock manager in the initial (unlocked) state with the default
configuration. -/
def unlockedManager : LockManager := { config := {} }

/-- Lock manager locked onto track 7, last seen at time 0, with the
default timeouts (500 ms / 2000 ms). -/
def lockedManager : LockManager :=
  { config := {}
    locked_track_id := some 7
    lock_timestamp := some 0
    last_seen_timestamp := some 0
    lock_bbox := some { x1 := 0, y1 := 0, x2 := 1, y2 := 1 }
    status := LockStatus.LOCKED
    frames_locked := 3 }

/-- A track with id 7 (the one `lockedManager` is locked to). -/
def trackSeven : Track :=
  { track_id := 7, bbox := { x1 := 2, y1 := 2, x2 := 4, y2 := 4 } }

/-! Theorems. -/

/-- C1: every setpoint produced by the safety pipeline while
`bench_mode` is true has thrust exactly 0 — on the gates-pass path of
`apply`, on the failsafe path, and from `force_neutral` — for every
input setpoint, every validity-flag combination and every internal
filter/slew state. -/
theorem bench_mode_thrust_always_zero (sm : SafetyManager) (sp : Setpoint)
    (lock_valid track_fresh telemetry_fresh : Bool) (t : ℚ)
    (hb : sm.config.bench_mode = true) :
    (sm.apply sp lock_valid track_fresh telemetry_fresh t).1.thrust = 0 ∧
    (sm.getFailsafeSetpoint t).1.thrust = 0 ∧
    (sm.forceNeutral t).1.thrust = 0 := by
  refine ⟨?_, rfl, rfl⟩
  cases htlf : telemetry_fresh <;>
    simp only [SafetyManager.apply, SafetyManager.getFailsafeSetpoint, htlf,
      if_true, if_false, Bool.false_eq_true] <;>
    split <;>
    simp [hb]

/-- Witness for C1 at a concrete bench-mode state and input. -/
theorem bench_mode_thrust_always_zero_witness :
    (benchSafetyManager.apply
        { roll_deg := 5, pitch_deg := 5, thrust := 1, yaw_deg := 0 }
        true true true 0).1.thrust = 0 ∧
    (benchSafetyManager.getFailsafeSetpoint 0).1.thrust = 0 ∧
    (benchSafetyManager.forceNeutral 0).1.thrust = 0 :=
  bench_mode_thrust_always_zero benchSafetyManager
    { roll_deg := 5, pitch_deg := 5, thrust := 1, yaw_deg := 0 } true true true 0 rfl

/-- C3: the control mapper returns exactly the neutral setpoint
whenever the lock-valid flag or the track-valid flag is unset,
regardless of error magnitudes, gains and deadbands. -/
theorem map_neutral_on_invalid (config : ControlConfig) (errors : Errors)
    (h : errors.lock_valid = false ∨ errors.track_valid = false) :
    ControlMapper.map config errors = Setpoint.neutral := by
  rcases h with h | h <;> simp [ControlMapper.map, h]

/-- Witness for C3 at a concrete invalid `Errors` value. -/
theorem map_neutral_on_invalid_witness :
    ControlMapper.map defaultControlConfig invalidErrors = Setpoint.neutral :=
  map_neutral_on_invalid defaultControlConfig invalidErrors (Or.inl rfl)

/-- C4: a single `FailsafeManager.update` step taken in the FAILSAFE
state never lands in NOMINAL: it either stays in FAILSAFE or enters
RECOVERY, for every input-flag combination and every time. -/
theorem failsafe_never_skips_recovery (fm : FailsafeManager)
    (track_valid telemetry_valid lock_valid : Bool) (t : ℚ)
    (h : fm.state = FailsafeState.FAILSAFE) :
    (fm.update track_valid telemetry_valid lock_valid t).1 = FailsafeState.FAILSAFE ∨
    (fm.update track_valid telemetry_valid lock_valid t).1 = FailsafeState.RECOVERY := by
  cases htl : track_valid && lock_valid <;> cases htel : telemetry_valid <;>
    simp only [FailsafeManager.update, FailsafeManager.transition, htl, htel,
      if_true, if_false, h, Bool.false_eq_true] <;>
    split <;> simp [h]

/-- Witness for C4: a concrete FAILSAFE-state step. -/
theorem failsafe_never_skips_recovery_witness :
    (failsafeManagerStuck.update false false false 0).1 = FailsafeState.FAILSAFE ∨
    (failsafeManagerStuck.update false false false 0).1 = FailsafeState.RECOVERY :=
  failsafe_never_skips_recovery failsafeManagerStuck false false false 0 rfl

/-- C9 counterexample: an input whose magnitude equals the threshold
exactly (the default yaw deadband 0.02 rad) is passed through
unchanged, not mapped to 0 — the deadband comparison is strict. -/
theorem deadband_threshold_cex :
    |(1 : ℚ)/50| = 1/50 ∧
    ControlMapper.applyDeadband (1/50) (1/50) = 1/50 ∧
    deadband (1/50) (1/50) = 1/50 ∧
    ¬ ControlMapper.applyDeadband (1/50) (1/50) = 0 := by
  have h : ¬(|(1 : ℚ)/50| < 1/50) := not_lt.mpr (le_abs_self _)
  refine ⟨abs_of_pos (by norm_num), if_neg h, if_neg h, ?_⟩
  rw [ControlMapper.applyDeadband, if_neg h]
  norm_num

/-- C9 amended: the deadband maps inputs with magnitude strictly below
the threshold to 0 and passes through unchanged any input whose
magnitude is greater than or equal to the threshold (the exact
threshold included); this holds for both the mapper's deadband and the
filters-module deadband, and so for the yaw, pitch and range
deadbands, which all call them. -/
theorem deadband_boundary (v th : ℚ) :
    (|v| < th → ControlMapper.applyDeadband v th = 0 ∧ deadband v th = 0) ∧
    (th ≤ |v| → ControlMapper.applyDeadband v th = v ∧ deadband v th = v) := by
  constructor
  · intro h
    exact ⟨if_pos h, if_pos h⟩
  · intro h
    exact ⟨if_neg (not_lt.mpr h), if_neg (not_lt.mpr h)⟩

/-- Witness for C9's amended statement on both sides of the
threshold. -/
theorem deadband_boundary_witness :
    (ControlMapper.applyDeadband (1/100) (1/50) = 0 ∧ deadband (1/100) (1/50) = 0) ∧
    (ControlMapper.applyDeadband (3/100) (1/50) = 3/100 ∧ deadband (3/100) (1/50) = 3/100) :=
  ⟨(deadband_boundary (1/100) (1/50)).1
      (by rw [abs_of_pos (by norm_num : (0 : ℚ) < 1/100)]; norm_num),
   (deadband_boundary (3/100) (1/50)).2
      (by rw [abs_of_pos (by norm_num : (0 : ℚ) < 3/100)]; norm_num)⟩

/-- C2 counterexample: starting from the freshly initialized default
safety manager, a valid 100° roll request at time 0 yields a clamped
20° output but leaves the slew state at 100°; an invalid-lock step at
time 1 then takes the failsafe path, which returns the slewed value
70° with no clamp, violating `|roll| ≤ roll_limit_deg = 20`. -/
theorem safety_limits_cex :
    spikeOutput.1.roll_deg = 20 ∧
    failsafeOutput.1.roll_deg = 70 ∧
    benchSafetyManager.config.roll_limit_deg = 20 ∧
    ¬(|failsafeOutput.1.roll_deg| ≤ benchSafetyManager.config.roll_limit_deg) := by
  have h1 : spikeOutput.1.roll_deg = 20 := rfl
  have h2 : failsafeOutput.1.roll_deg = 70 := by
    norm_num [failsafeOutput, spikeOutput, benchSafetyManager, SafetyManager.init,
      SafetyManager.apply, SafetyManager.checkGates, SafetyManager.getFailsafeSetpoint,
      EMAFilter.update, SlewRateLimiter.update, clamp]
  have h3 : benchSafetyManager.config.roll_limit_deg = 20 := rfl
  refine ⟨h1, h2, h3, ?_⟩
  rw [h2, h3, abs_of_pos (by norm_num : (0 : ℚ) < 70)]
  norm_num

/-- C5 counterexample: across the same two consecutive outputs
(entering the failsafe path), the roll moves from 20° to 70° over a
wall-clock gap of 1 s, exceeding `roll_slew_rate_deg_s · Δ = 30`. -/
theorem safety_slew_cex :
    spikeOutput.1.roll_deg = 20 ∧
    failsafeOutput.1.roll_deg = 70 ∧
    benchSafetyManager.config.roll_slew_rate_deg_s = 30 ∧
    ¬(|failsafeOutput.1.roll_deg - spikeOutput.1.roll_deg| ≤
        benchSafetyManager.config.roll_slew_rate_deg_s * (1 - 0)) := by
  have h1 : spikeOutput.1.roll_deg = 20 := rfl
  have h2 : failsafeOutput.1.roll_deg = 70 := by
    norm_num [failsafeOutput, spikeOutput, benchSafetyManager, SafetyManager.init,
      SafetyManager.apply, SafetyManager.checkGates, SafetyManager.getFailsafeSetpoint,
      EMAFilter.update, SlewRateLimiter.update, clamp]
  have h3 : benchSafetyManager.config.roll_slew_rate_deg_s = 30 := rfl
  refine ⟨h1, h2, h3, ?_⟩
  rw [h1, h2, h3, show (70 : ℚ) - 20 = 50 by norm_num,
    abs_of_pos (by norm_num : (0 : ℚ) < 50)]
  norm_num

/-- Clamping to the symmetric range `[−L, L]` with `0 ≤ L` bounds the
absolute value by `L`. -/
theorem abs_clamp_le (x L : ℚ) (hL : 0 ≤ L) : |clamp x (-L) L| ≤ L := by
  rw [abs_le]
  constructor
  · exact le_max_left _ _
  · exact max_le (by linarith) (min_le_left _ _)

/-- Clamping is 1-Lipschitz. -/
theorem abs_clamp_sub_clamp_le (a b lo hi : ℚ) :
    |clamp a lo hi - clamp b lo hi| ≤ |a - b| := by
  unfold clamp
  calc |max lo (min hi a) - max lo (min hi b)|
      ≤ max |lo - lo| |min hi a - min hi b| := abs_max_sub_max_le_max _ _ _ _
    _ = |min hi a - min hi b| := by
        rw [sub_self, abs_zero, max_eq_right (abs_nonneg _)]
    _ ≤ max |hi - hi| |a - b| := abs_min_sub_min_le_max _ _ _ _
    _ = |a - b| := by
        rw [sub_self, abs_zero, max_eq_right (abs_nonneg _)]

/-- After a slew update the stored value is exactly the returned
value. -/
theorem slew_update_last_value (s : SlewRateLimiter) (x t : ℚ) :
    ((s.update x t).2).last_value = some ((s.update x t).1) := by
  rcases h1 : s.last_value with _ | lv <;> rcases h2 : s.last_time with _ | lt <;>
    simp only [SlewRateLimiter.update, h1, h2]
  split_ifs with hd
  · exact h1
  all_goals rfl

/-- After a slew update the stored time is defined and at least the
update time (a non-positive `dt` keeps the old, later time). -/
theorem slew_update_last_time (s : SlewRateLimiter) (x t : ℚ) :
    ∃ u, ((s.update x t).2).last_time = some u ∧ t ≤ u := by
  rcases h1 : s.last_value with _ | lv <;> rcases h2 : s.last_time with _ | lt <;>
    simp only [SlewRateLimiter.update, h1, h2]
  all_goals try exact ⟨t, rfl, le_refl t⟩
  split_ifs with hd
  · exact ⟨lt, h2, by linarith⟩
  all_goals exact ⟨t, rfl, le_refl t⟩

/-- A slew update never changes the configured maximum rate. -/
theorem slew_update_max_rate (s : SlewRateLimiter) (x t : ℚ) :
    ((s.update x t).2).max_rate = s.max_rate := by
  rcases h1 : s.last_value with _ | lv <;> rcases h2 : s.last_time with _ | lt <;>
    simp only [SlewRateLimiter.update, h1, h2]
  split_ifs with hd
  all_goals rfl

/-- Core slew bound: when the limiter already holds a value and a
time, one update moves the value by at most
`max_rate · max 0 (t − last_time)`. -/
theorem slew_update_bound (s : SlewRateLimiter) (x t lv lt : ℚ)
    (h1 : s.last_value = some lv) (h2 : s.last_time = some lt)
    (hr : 0 ≤ s.max_rate) :
    |(s.update x t).1 - lv| ≤ s.max_rate * max 0 (t - lt) := by
  simp only [SlewRateLimiter.update, h1, h2]
  split_ifs with hd habs hpos
  · simp only [sub_self, abs_zero]
    exact mul_nonneg hr (le_max_left _ _)
  · have hd' : 0 < t - lt := by linarith
    have hmc : 0 ≤ s.max_rate * (t - lt) := mul_nonneg hr (le_of_lt hd')
    rw [max_eq_right (le_of_lt hd')]
    show |lv + s.max_rate * (t - lt) - lv| ≤ s.max_rate * (t - lt)
    rw [add_sub_cancel_left, abs_of_nonneg hmc]
  · have hd' : 0 < t - lt := by linarith
    have hmc : 0 ≤ s.max_rate * (t - lt) := mul_nonneg hr (le_of_lt hd')
    rw [max_eq_right (le_of_lt hd')]
    show |lv + -(s.max_rate * (t - lt)) - lv| ≤ s.max_rate * (t - lt)
    rw [add_sub_cancel_left, abs_neg, abs_of_nonneg hmc]
  · have hd' : 0 < t - lt := by linarith
    rw [max_eq_right (le_of_lt hd')]
    show |lv + (x - lv) - lv| ≤ s.max_rate * (t - lt)
    rw [add_sub_cancel_left]
    exact not_lt.mp habs

/-- Structure of one `apply` step on the roll axis: the step leaves
the roll slew limiter holding some value `v` and a time `u ≥ t`, keeps
its rate and the configuration, outputs `v` clamped on the gates-pass
path and raw `v` on the failsafe path, and `v` moves from any
previously stored slew value by at most `max_rate · max 0 (t −
last_time)`. -/
theorem apply_roll (sm : SafetyManager) (sp : Setpoint)
    (lock_valid track_fresh telemetry_fresh : Bool) (t : ℚ) :
    ∃ v u,
      ((sm.apply sp lock_valid track_fresh telemetry_fresh t).2).roll_slew.last_value
        = some v ∧
      ((sm.apply sp lock_valid track_fresh telemetry_fresh t).2).roll_slew.last_time
        = some u ∧
      t ≤ u ∧
      ((sm.apply sp lock_valid track_fresh telemetry_fresh t).2).roll_slew.max_rate
        = sm.roll_slew.max_rate ∧
      ((sm.apply sp lock_valid track_fresh telemetry_fresh t).2).config = sm.config ∧
      (sm.apply sp lock_valid track_fresh telemetry_fresh t).1.roll_deg =
        (if sm.gatesPass lock_valid track_fresh telemetry_fresh t
          then clamp v (-sm.config.roll_limit_deg) sm.config.roll_limit_deg
          else v) ∧
      (∀ lv0 lt0, sm.roll_slew.last_value = some lv0 →
        sm.roll_slew.last_time = some lt0 → 0 ≤ sm.roll_slew.max_rate →
        |v - lv0| ≤ sm.roll_slew.max_rate * max 0 (t - lt0)) := by
  cases htlf : telemetry_fresh
  case false =>
    by_cases hg : sm.checkGates lock_valid track_fresh false t = true
    · obtain ⟨u, hu, htu⟩ := slew_update_last_time
        sm.roll_slew ((sm.roll_ema.update sp.roll_deg).1) t
      refine ⟨(sm.roll_slew.update ((sm.roll_ema.update sp.roll_deg).1) t).1, u,
        ?_, ?_, htu, ?_, ?_, ?_,
        fun lv0 lt0 h1 h2 h3 => slew_update_bound _ _ _ _ _ h1 h2 h3⟩ <;>
        simp [SafetyManager.apply, SafetyManager.gatesPass, hg, hu,
          slew_update_last_value, slew_update_max_rate]
    · rw [Bool.not_eq_true] at hg
      obtain ⟨u, hu, htu⟩ := slew_update_last_time sm.roll_slew 0 t
      refine ⟨(sm.roll_slew.update 0 t).1, u, ?_, ?_, htu, ?_, ?_, ?_,
        fun lv0 lt0 h1 h2 h3 => slew_update_bound _ _ _ _ _ h1 h2 h3⟩ <;>
        simp [SafetyManager.apply, SafetyManager.gatesPass,
          SafetyManager.getFailsafeSetpoint, hg, hu,
          slew_update_last_value, slew_update_max_rate]
  case true =>
    by_cases hg : ({ sm with last_telemetry_time := some t } : SafetyManager).checkGates
        lock_valid track_fresh true t = true
    · obtain ⟨u, hu, htu⟩ := slew_update_last_time
        sm.roll_slew ((sm.roll_ema.update sp.roll_deg).1) t
      refine ⟨(sm.roll_slew.update ((sm.roll_ema.update sp.roll_deg).1) t).1, u,
        ?_, ?_, htu, ?_, ?_, ?_,
        fun lv0 lt0 h1 h2 h3 => slew_update_bound _ _ _ _ _ h1 h2 h3⟩ <;>
        simp [SafetyManager.apply, SafetyManager.gatesPass, hg, hu,
          slew_update_last_value, slew_update_max_rate]
    · rw [Bool.not_eq_true] at hg
      obtain ⟨u, hu, htu⟩ := slew_update_last_time sm.roll_slew 0 t
      refine ⟨(sm.roll_slew.update 0 t).1, u, ?_, ?_, htu, ?_, ?_, ?_,
        fun lv0 lt0 h1 h2 h3 => slew_update_bound _ _ _ _ _ h1 h2 h3⟩ <;>
        simp [SafetyManager.apply, SafetyManager.gatesPass,
          SafetyManager.getFailsafeSetpoint, hg, hu,
          slew_update_last_value, slew_update_max_rate]

/-- Structure of one `apply` step on the pitch axis; the exact
counterpart of the roll-axis lemma. -/
theorem apply_pitch (sm : SafetyManager) (sp : Setpoint)
    (lock_valid track_fresh telemetry_fresh : Bool) (t : ℚ) :
    ∃ v u,
      ((sm.apply sp lock_valid track_fresh telemetry_fresh t).2).pitch_slew.last_value
        = some v ∧
      ((sm.apply sp lock_valid track_fresh telemetry_fresh t).2).pitch_slew.last_time
        = some u ∧
      t ≤ u ∧
      ((sm.apply sp lock_valid track_fresh telemetry_fresh t).2).pitch_slew.max_rate
        = sm.pitch_slew.max_rate ∧
      ((sm.apply sp lock_valid track_fresh telemetry_fresh t).2).config = sm.config ∧
      (sm.apply sp lock_valid track_fresh telemetry_fresh t).1.pitch_deg =
        (if sm.gatesPass lock_valid track_fresh telemetry_fresh t
          then clamp v (-sm.config.pitch_limit_deg) sm.config.pitch_limit_deg
          else v) ∧
      (∀ lv0 lt0, sm.pitch_slew.last_value = some lv0 →
        sm.pitch_slew.last_time = some lt0 → 0 ≤ sm.pitch_slew.max_rate →
        |v - lv0| ≤ sm.pitch_slew.max_rate * max 0 (t - lt0)) := by
  cases htlf : telemetry_fresh
  case false =>
    by_cases hg : sm.checkGates lock_valid track_fresh false t = true
    · obtain ⟨u, hu, htu⟩ := slew_update_last_time
        sm.pitch_slew ((sm.pitch_ema.update sp.pitch_deg).1) t
      refine ⟨(sm.pitch_slew.update ((sm.pitch_ema.update sp.pitch_deg).1) t).1, u,
        ?_, ?_, htu, ?_, ?_, ?_,
        fun lv0 lt0 h1 h2 h3 => slew_update_bound _ _ _ _ _ h1 h2 h3⟩ <;>
        simp [SafetyManager.apply, SafetyManager.gatesPass, hg, hu,
          slew_update_last_value, slew_update_max_rate]
    · rw [Bool.not_eq_true] at hg
      obtain ⟨u, hu, htu⟩ := slew_update_last_time sm.pitch_slew 0 t
      refine ⟨(sm.pitch_slew.update 0 t).1, u, ?_, ?_, htu, ?_, ?_, ?_,
        fun lv0 lt0 h1 h2 h3 => slew_update_bound _ _ _ _ _ h1 h2 h3⟩ <;>
        simp [SafetyManager.apply, SafetyManager.gatesPass,
          SafetyManager.getFailsafeSetpoint, hg, hu,
          slew_update_last_value, slew_update_max_rate]
  case true =>
    by_cases hg : ({ sm with last_telemetry_time := some t } : SafetyManager).checkGates
        lock_valid track_fresh true t = true
    · obtain ⟨u, hu, htu⟩ := slew_update_last_time
        sm.pitch_slew ((sm.pitch_ema.update sp.pitch_deg).1) t
      refine ⟨(sm.pitch_slew.update ((sm.pitch_ema.update sp.pitch_deg).1) t).1, u,
        ?_, ?_, htu, ?_, ?_, ?_,
        fun lv0 lt0 h1 h2 h3 => slew_update_bound _ _ _ _ _ h1 h2 h3⟩ <;>
        simp [SafetyManager.apply, SafetyManager.gatesPass, hg, hu,
          slew_update_last_value, slew_update_max_rate]
    · rw [Bool.not_eq_true] at hg
      obtain ⟨u, hu, htu⟩ := slew_update_last_time sm.pitch_slew 0 t
      refine ⟨(sm.pitch_slew.update 0 t).1, u, ?_, ?_, htu, ?_, ?_, ?_,
        fun lv0 lt0 h1 h2 h3 => slew_update_bound _ _ _ _ _ h1 h2 h3⟩ <;>
        simp [SafetyManager.apply, SafetyManager.gatesPass,
          SafetyManager.getFailsafeSetpoint, hg, hu,
          slew_update_last_value, slew_update_max_rate]

/-- C2 amended: on the gates-pass path the safety pipeline's output
satisfies `|roll| ≤ roll_limit_deg` and `|pitch| ≤ pitch_limit_deg`
(for nonnegative limits), for every input setpoint and every internal
filter/slew state; the failsafe path applies no clamp and can exceed
the limits while ramping toward zero (see the counterexample). -/
theorem safety_limits_gates_pass (sm : SafetyManager) (sp : Setpoint)
    (lock_valid track_fresh telemetry_fresh : Bool) (t : ℚ)
    (hg : sm.gatesPass lock_valid track_fresh telemetry_fresh t = true)
    (hr : 0 ≤ sm.config.roll_limit_deg) (hp : 0 ≤ sm.config.pitch_limit_deg) :
    |(sm.apply sp lock_valid track_fresh telemetry_fresh t).1.roll_deg|
      ≤ sm.config.roll_limit_deg ∧
    |(sm.apply sp lock_valid track_fresh telemetry_fresh t).1.pitch_deg|
      ≤ sm.config.pitch_limit_deg := by
  obtain ⟨v, u, _, _, _, _, _, hout, _⟩ :=
    apply_roll sm sp lock_valid track_fresh telemetry_fresh t
  obtain ⟨w, u', _, _, _, _, _, hout', _⟩ :=
    apply_pitch sm sp lock_valid track_fresh telemetry_fresh t
  rw [hout, hout', hg]
  constructor
  · simpa using abs_clamp_le v sm.config.roll_limit_deg hr
  · simpa using abs_clamp_le w sm.config.pitch_limit_deg hp

/-- Witness for C2's amended statement on a concrete gates-pass
step. -/
theorem safety_limits_gates_pass_witness :
    |(benchSafetyManager.apply
        { roll_deg := 5, pitch_deg := 3, thrust := 0, yaw_deg := 0 }
        true true true 0).1.roll_deg| ≤ benchSafetyManager.config.roll_limit_deg ∧
    |(benchSafetyManager.apply
        { roll_deg := 5, pitch_deg := 3, thrust := 0, yaw_deg := 0 }
        true true true 0).1.pitch_deg| ≤ benchSafetyManager.config.pitch_limit_deg :=
  safety_limits_gates_pass benchSafetyManager
    { roll_deg := 5, pitch_deg := 3, thrust := 0, yaw_deg := 0 } true true true 0
    rfl (by norm_num [benchSafetyManager, SafetyManager.init])
    (by norm_num [benchSafetyManager, SafetyManager.init])

/-- C5 amended: two consecutive `apply` outputs taken on the same path
(both gates-pass or both failsafe) separated by wall-clock gap
`Δ = t2 − t1 ≥ 0` satisfy `|Δroll| ≤ roll_slew_rate_deg_s · Δ` and
`|Δpitch| ≤ pitch_slew_rate_deg_s · Δ` exactly (no floating-point ε is
needed over exact rationals); a step that switches between the
gates-pass and failsafe paths can jump further, because the gates-pass
output is the post-clamp value while the slew state may lie beyond the
clamp (see the counterexample). -/
theorem safety_slew_same_path (sm : SafetyManager) (sp1 sp2 : Setpoint)
    (lv1 tf1 tlf1 lv2 tf2 tlf2 : Bool) (t1 t2 : ℚ)
    (hrate : sm.roll_slew.max_rate = sm.config.roll_slew_rate_deg_s)
    (hrate' : sm.pitch_slew.max_rate = sm.config.pitch_slew_rate_deg_s)
    (hr : 0 ≤ sm.config.roll_slew_rate_deg_s)
    (hp : 0 ≤ sm.config.pitch_slew_rate_deg_s)
    (ht : t1 ≤ t2)
    (hpath : ((sm.apply sp1 lv1 tf1 tlf1 t1).2).gatesPass lv2 tf2 tlf2 t2
      = sm.gatesPass lv1 tf1 tlf1 t1) :
    |(((sm.apply sp1 lv1 tf1 tlf1 t1).2).apply sp2 lv2 tf2 tlf2 t2).1.roll_deg
        - (sm.apply sp1 lv1 tf1 tlf1 t1).1.roll_deg|
      ≤ sm.config.roll_slew_rate_deg_s * (t2 - t1) ∧
    |(((sm.apply sp1 lv1 tf1 tlf1 t1).2).apply sp2 lv2 tf2 tlf2 t2).1.pitch_deg
        - (sm.apply sp1 lv1 tf1 tlf1 t1).1.pitch_deg|
      ≤ sm.config.pitch_slew_rate_deg_s * (t2 - t1) := by
  obtain ⟨v1, u1, hv1, hu1, htu1, hmr1, hcfg1, hout1, _⟩ :=
    apply_roll sm sp1 lv1 tf1 tlf1 t1
  obtain ⟨v2, u2, hv2, hu2, htu2, hmr2, hcfg2, hout2, hbound2⟩ :=
    apply_roll ((sm.apply sp1 lv1 tf1 tlf1 t1).2) sp2 lv2 tf2 tlf2 t2
  obtain ⟨w1, s1, hw1, hs1, hts1, hnr1, _, pout1, _⟩ :=
    apply_pitch sm sp1 lv1 tf1 tlf1 t1
  obtain ⟨w2, s2, hw2, hs2, hts2, hnr2, _, pout2, pbound2⟩ :=
    apply_pitch ((sm.apply sp1 lv1 tf1 tlf1 t1).2) sp2 lv2 tf2 tlf2 t2
  have hb : |v2 - v1| ≤ sm.config.roll_slew_rate_deg_s * (t2 - t1) := by
    have h0 := hbound2 v1 u1 hv1 hu1 (by rw [hmr1, hrate]; exact hr)
    have hmax : max 0 (t2 - u1) ≤ t2 - t1 := max_le (by linarith) (by linarith)
    calc |v2 - v1|
        ≤ ((sm.apply sp1 lv1 tf1 tlf1 t1).2).roll_slew.max_rate * max 0 (t2 - u1) := h0
      _ = sm.config.roll_slew_rate_deg_s * max 0 (t2 - u1) := by rw [hmr1, hrate]
      _ ≤ sm.config.roll_slew_rate_deg_s * (t2 - t1) :=
          mul_le_mul_of_nonneg_left hmax hr
  have pb : |w2 - w1| ≤ sm.config.pitch_slew_rate_deg_s * (t2 - t1) := by
    have h0 := pbound2 w1 s1 hw1 hs1 (by rw [hnr1, hrate']; exact hp)
    have hmax : max 0 (t2 - s1) ≤ t2 - t1 := max_le (by linarith) (by linarith)
    calc |w2 - w1|
        ≤ ((sm.apply sp1 lv1 tf1 tlf1 t1).2).pitch_slew.max_rate * max 0 (t2 - s1) := h0
      _ = sm.config.pitch_slew_rate_deg_s * max 0 (t2 - s1) := by rw [hnr1, hrate']
      _ ≤ sm.config.pitch_slew_rate_deg_s * (t2 - t1) :=
          mul_le_mul_of_nonneg_left hmax hp
  rw [hout1, hout2, pout1, pout2, hpath, hcfg1]
  cases hgp : sm.gatesPass lv1 tf1 tlf1 t1
  · simpa using ⟨hb, pb⟩
  · simp only [ite_true, if_true]
    constructor
    · exact le_trans (abs_clamp_sub_clamp_le v2 v1 _ _) hb
    · exact le_trans (abs_clamp_sub_clamp_le w2 w1 _ _) pb

/-- Witness for C5's amended statement: two consecutive gates-pass
steps 0.1 s apart. -/
theorem safety_slew_same_path_witness :
    |(((benchSafetyManager.apply
          { roll_deg := 5, pitch_deg := 3, thrust := 0, yaw_deg := 0 }
          true true true 0).2).apply
          { roll_deg := 5, pitch_deg := 3, thrust := 0, yaw_deg := 0 }
          true true true (1/10)).1.roll_deg
        - (benchSafetyManager.apply
          { roll_deg := 5, pitch_deg := 3, thrust := 0, yaw_deg := 0 }
          true true true 0).1.roll_deg|
      ≤ benchSafetyManager.config.roll_slew_rate_deg_s * (1/10 - 0) ∧
    |(((benchSafetyManager.apply
          { roll_deg := 5, pitch_deg := 3, thrust := 0, yaw_deg := 0 }
          true true true 0).2).apply
          { roll_deg := 5, pitch_deg := 3, thrust := 0, yaw_deg := 0 }
          true true true (1/10)).1.pitch_deg
        - (benchSafetyManager.apply
          { roll_deg := 5, pitch_deg := 3, thrust := 0, yaw_deg := 0 }
          true true true 0).1.pitch_deg|
      ≤ benchSafetyManager.config.pitch_slew_rate_deg_s * (1/10 - 0) :=
  safety_slew_same_path benchSafetyManager
    { roll_deg := 5, pitch_deg := 3, thrust := 0, yaw_deg := 0 }
    { roll_deg := 5, pitch_deg := 3, thrust := 0, yaw_deg := 0 }
    true true true true true true 0 (1/10)
    rfl rfl
    (by norm_num [benchSafetyManager, SafetyManager.init])
    (by norm_num [benchSafetyManager, SafetyManager.init])
    (by norm_num)
    (by norm_num [SafetyManager.gatesPass, SafetyManager.checkGates,
      SafetyManager.apply, benchSafetyManager, SafetyManager.init,
      EMAFilter.update, SlewRateLimiter.update, clamp])

/-- If some track in the list contains the click, the selection loop
stops at the first such track (list order) with distance 0, whatever
the accumulated best candidate is. -/
theorem selectByPixelLoop_containing (u v : ℚ) (ts : List Track)
    (best : Option (Track × ℚ)) (tr : Track)
    (h : ts.find? (fun tr => decide (containsPt u v tr)) = some tr) :
    selectByPixelLoop u v ts best = some (tr, 0) := by
  induction ts generalizing best with
  | nil => simp at h
  | cons hd tl ih =>
    by_cases hc : containsPt u v hd
    · rw [List.find?_cons_of_pos _ (by simpa using hc)] at h
      cases h
      simp [selectByPixelLoop, hc]
    · rw [List.find?_cons_of_neg _ (by simpa using hc)] at h
      simp only [selectByPixelLoop, if_neg hc]
      exact ih _ h

/-- Running-minimum invariant of the selection loop on a list with no
containing track, starting from an accumulated best `(b, db)`: the
loop returns some `(b', db')` with `db' ≤ db`, `db'` a lower bound of
all distances in the list, and either the accumulator survives
unchanged or `b'` is a list element at its own distance, strictly
better than the accumulator and than every element before it (strict
`<` keeps the earliest minimum). -/
theorem selectByPixelLoop_min (u v : ℚ) (ts : List Track) :
    ∀ (b : Track) (db : ℚ), (∀ tr ∈ ts, ¬ containsPt u v tr) →
    ∃ b' db', selectByPixelLoop u v ts (some (b, db)) = some (b', db') ∧
      db' ≤ db ∧ (∀ tr ∈ ts, db' ≤ centerDistSq u v tr) ∧
      ((b' = b ∧ db' = db) ∨
       (db' = centerDistSq u v b' ∧ db' < db ∧
        ∃ pre suf, ts = pre ++ b' :: suf ∧
          ∀ tr ∈ pre, db' < centerDistSq u v tr)) := by
  induction ts with
  | nil =>
    intro b db _
    exact ⟨b, db, rfl, le_refl db, by simp, Or.inl ⟨rfl, rfl⟩⟩
  | cons hd tl ih =>
    intro b db h
    have hc : ¬ containsPt u v hd := h hd (List.mem_cons_self hd tl)
    have htl : ∀ tr ∈ tl, ¬ containsPt u v tr :=
      fun tr htr => h tr (List.mem_cons_of_mem hd htr)
    simp only [selectByPixelLoop, if_neg hc]
    by_cases hlt : centerDistSq u v hd < db
    · rw [if_pos hlt]
      obtain ⟨b', db', hloop, hle, hglob, hcase⟩ := ih hd (centerDistSq u v hd) htl
      refine ⟨b', db', hloop, le_trans hle (le_of_lt hlt), ?_, ?_⟩
      · intro tr htr
        rcases List.mem_cons.mp htr with rfl | htr'
        · exact hle
        · exact hglob tr htr'
      · right
        rcases hcase with ⟨hb, hdb⟩ | ⟨heq, hlt', pre, suf, happ, hpre⟩
        · refine ⟨by rw [hb, hdb], by rw [hdb]; exact hlt, [], tl, by simp [hb], ?_⟩
          intro tr htr
          simp at htr
        · refine ⟨heq, lt_trans hlt' hlt, hd :: pre, suf, by simp [happ], ?_⟩
          intro tr htr
          rcases List.mem_cons.mp htr with rfl | htr'
          · exact hlt'
          · exact hpre tr htr'
    · rw [if_neg hlt]
      obtain ⟨b', db', hloop, hle, hglob, hcase⟩ := ih b db htl
      refine ⟨b', db', hloop, hle, ?_, ?_⟩
      · intro tr htr
        rcases List.mem_cons.mp htr with rfl | htr'
        · exact le_trans hle (not_lt.mp hlt)
        · exact hglob tr htr'
      · rcases hcase with hl | ⟨heq, hlt', pre, suf, happ, hpre⟩
        · exact Or.inl hl
        · refine Or.inr ⟨heq, hlt', hd :: pre, suf, by simp [happ], ?_⟩
          intro tr htr
          rcases List.mem_cons.mp htr with rfl | htr'
          · exact lt_of_lt_of_le hlt' (not_lt.mp hlt)
          · exact hpre tr htr'

/-- On a non-empty list with no containing track, the selection loop
started from the empty accumulator returns the earliest track of
globally minimal center distance. -/
theorem selectByPixelLoop_first (u v : ℚ) (hd : Track) (tl : List Track)
    (hnc : ∀ tr ∈ hd :: tl, ¬ containsPt u v tr) :
    ∃ b' db', selectByPixelLoop u v (hd :: tl) none = some (b', db') ∧
      db' = centerDistSq u v b' ∧
      (∀ tr ∈ hd :: tl, db' ≤ centerDistSq u v tr) ∧
      ∃ pre suf, hd :: tl = pre ++ b' :: suf ∧
        ∀ tr ∈ pre, db' < centerDistSq u v tr := by
  have hc : ¬ containsPt u v hd := hnc hd (List.mem_cons_self hd tl)
  have htl : ∀ tr ∈ tl, ¬ containsPt u v tr :=
    fun tr htr => hnc tr (List.mem_cons_of_mem hd htr)
  simp only [selectByPixelLoop, if_neg hc]
  obtain ⟨b', db', hloop, hle, hglob, hcase⟩ :=
    selectByPixelLoop_min u v tl hd (centerDistSq u v hd) htl
  refine ⟨b', db', hloop, ?_, ?_, ?_⟩
  · rcases hcase with ⟨hb, hdb⟩ | ⟨heq, _, _, _, _, _⟩
    · rw [hb, hdb]
    · exact heq
  · intro tr htr
    rcases List.mem_cons.mp htr with rfl | htr'
    · exact hle
    · exact hglob tr htr'
  · rcases hcase with ⟨hb, hdb⟩ | ⟨heq, hlt', pre, suf, happ, hpre⟩
    · refine ⟨[], tl, by simp [hb], ?_⟩
      intro tr htr
      simp at htr
    · refine ⟨hd :: pre, suf, by simp [happ], ?_⟩
      intro tr htr
      rcases List.mem_cons.mp htr with rfl | htr'
      · exact hlt'
      · exact hpre tr htr'

/-- C6: updating a locked manager with a track list that does not
contain the locked id classifies the lock by the elapsed milliseconds
`Δ = (t − last_seen)·1000`: LOCKING while `Δ < lock_timeout_ms`, LOST
while `lock_timeout_ms ≤ Δ < reacquire_timeout_ms`, and UNLOCKED with
the lock cleared once `reacquire_timeout_ms ≤ Δ`. -/
theorem lock_update_timeout_classification
    (lm : LockManager) (tracks : List Track) (t last_seen : ℚ) (lid : ℤ)
    (hlock : lm.locked_track_id = some lid)
    (hseen : lm.last_seen_timestamp = some last_seen)
    (habsent : ∀ tr ∈ tracks, tr.track_id ≠ lid)
    (hto : lm.config.lock_timeout_ms ≤ lm.config.reacquire_timeout_ms) :
    ((t - last_seen) * 1000 < lm.config.lock_timeout_ms →
      lm.update tracks t = some
        ({ status := LockStatus.LOCKING, locked_track_id := some lid,
           lock_timestamp := lm.lock_timestamp, frames_since_lock := lm.frames_locked },
         { lm with status := LockStatus.LOCKING })) ∧
    (lm.config.lock_timeout_ms ≤ (t - last_seen) * 1000 →
      (t - last_seen) * 1000 < lm.config.reacquire_timeout_ms →
      lm.update tracks t = some
        ({ status := LockStatus.LOST, locked_track_id := some lid,
           lock_timestamp := lm.lock_timestamp, frames_since_lock := lm.frames_locked },
         { lm with status := LockStatus.LOST })) ∧
    (lm.config.reacquire_timeout_ms ≤ (t - last_seen) * 1000 →
      lm.update tracks t = some ({ status := LockStatus.UNLOCKED }, lm.clearLock)) := by
  have hfind : tracks.find? (fun tr => tr.track_id == lid) = none := by
    rw [List.find?_eq_none]
    intro tr htr
    simpa using habsent tr htr
  refine ⟨fun h1 => ?_, fun h1 h2 => ?_, fun h1 => ?_⟩
  · simp [LockManager.update, hlock, hfind, hseen, if_pos h1]
  · simp [LockManager.update, hlock, hfind, hseen, if_neg (not_lt.mpr h1), if_pos h2]
  · have h0 : lm.config.lock_timeout_ms ≤ (t - last_seen) * 1000 := le_trans hto h1
    simp [LockManager.update, hlock, hfind, hseen, if_neg (not_lt.mpr h0),
      if_neg (not_lt.mpr h1)]

/-- Witness for C6 at the default timeouts (500 ms, 2000 ms), probing
Δ = 499 ms, 501 ms and 2001 ms. -/
theorem lock_update_timeout_classification_witness :
    lockedManager.update [] (499/1000) = some
      ({ status := LockStatus.LOCKING, locked_track_id := some 7,
         lock_timestamp := lockedManager.lock_timestamp,
         frames_since_lock := lockedManager.frames_locked },
       { lockedManager with status := LockStatus.LOCKING }) ∧
    lockedManager.update [] (501/1000) = some
      ({ status := LockStatus.LOST, locked_track_id := some 7,
         lock_timestamp := lockedManager.lock_timestamp,
         frames_since_lock := lockedManager.frames_locked },
       { lockedManager with status := LockStatus.LOST }) ∧
    lockedManager.update [] (2001/1000) = some
      ({ status := LockStatus.UNLOCKED }, lockedManager.clearLock) :=
  ⟨(lock_update_timeout_classification lockedManager [] (499/1000) 0 7 rfl rfl
      (by simp) (by norm_num [lockedManager])).1 (by norm_num [lockedManager]),
   (lock_update_timeout_classification lockedManager [] (501/1000) 0 7 rfl rfl
      (by simp) (by norm_num [lockedManager])).2.1
      (by norm_num [lockedManager]) (by norm_num [lockedManager]),
   (lock_update_timeout_classification lockedManager [] (2001/1000) 0 7 rfl rfl
      (by simp) (by norm_num [lockedManager])).2.2 (by norm_num [lockedManager])⟩

/-- C7: whenever `LockManager.update` reports status LOCKED, the
reported locked track id is the id of some track in the list passed to
that very update call. -/
theorem locked_implies_seen (lm : LockManager) (tracks : List Track) (t : ℚ)
    (st : LockState) (lm' : LockManager)
    (h : lm.update tracks t = some (st, lm'))
    (hs : st.status = LockStatus.LOCKED) :
    ∃ tr ∈ tracks, st.locked_track_id = some tr.track_id := by
  cases hid : lm.locked_track_id with
  | none =>
    simp only [LockManager.update, hid, Option.some.injEq, Prod.mk.injEq] at h
    rw [← h.1] at hs
    simp at hs
  | some lid =>
    cases hf : tracks.find? (fun tr => tr.track_id == lid) with
    | some found =>
      simp only [LockManager.update, hid, hf, Option.some.injEq, Prod.mk.injEq] at h
      have hbeq : found.track_id = lid := by
        simpa using List.find?_some hf
      refine ⟨found, List.mem_of_find?_eq_some hf, ?_⟩
      rw [← h.1, hbeq]
    | none =>
      cases hseen : lm.last_seen_timestamp with
      | none => simp [LockManager.update, hid, hf, hseen] at h
      | some ls =>
        simp only [LockManager.update, hid, hf, hseen] at h
        split_ifs at h <;>
          (simp only [Option.some.injEq, Prod.mk.injEq] at h
           rw [← h.1] at hs
           simp at hs)

/-- Witness for C7: a locked manager sees its track again and reports
LOCKED with the id of that track. -/
theorem locked_implies_seen_witness :
    ∃ tr ∈ [trackSeven],
      ({ status := LockStatus.LOCKED, locked_track_id := some 7,
         lock_timestamp := some 0, frames_since_lock := 4 } : LockState).locked_track_id
        = some tr.track_id :=
  locked_implies_seen lockedManager [trackSeven] 1
    { status := LockStatus.LOCKED, locked_track_id := some 7,
      lock_timestamp := some 0, frames_since_lock := 4 }
    { lockedManager with
        last_seen_timestamp := some 1
        lock_bbox := some trackSeven.bbox
        status := LockStatus.LOCKED
        frames_locked := 4 }
    rfl rfl

/-- C10: selection is atomic on failure — `select_by_id` with an id
absent from the track list returns false and leaves the whole lock
state untouched, and any `select_by_pixel` call that reports failure
leaves the whole lock state untouched. -/
theorem selection_failure_atomic (lm : LockManager) (track_id : ℤ) (u v t : ℚ)
    (tracks : List Track) :
    ((∀ tr ∈ tracks, tr.track_id ≠ track_id) →
      lm.selectById track_id tracks t = (false, lm)) ∧
    ((lm.selectByPixel u v tracks t).1 = false →
      (lm.selectByPixel u v tracks t).2 = lm) := by
  constructor
  · intro h
    have hfind : tracks.find? (fun tr => tr.track_id == track_id) = none := by
      rw [List.find?_eq_none]
      intro tr htr
      simpa using h tr htr
    simp [LockManager.selectById, hfind]
  · intro h
    by_cases he : tracks.isEmpty
    · simp [LockManager.selectByPixel, he]
    · cases hl : selectByPixelLoop u v tracks none with
      | none => simp [LockManager.selectByPixel, he, hl]
      | some p =>
        obtain ⟨bt, bd⟩ := p
        simp only [LockManager.selectByPixel, he, hl, if_false, Bool.false_eq_true] at h ⊢
        split_ifs at h ⊢ with hc
        all_goals simp_all

/-- Witness for C10: an absent id fails and retains the existing lock;
a pixel click far from the only track fails and leaves the state
unchanged. -/
theorem selection_failure_atomic_witness :
    lockedManager.selectById 9 [trackSeven] 1 = (false, lockedManager) ∧
    (unlockedManager.selectByPixel 500 500 [trackSeven] 0).2 = unlockedManager :=
  ⟨(selection_failure_atomic lockedManager 9 500 500 1 [trackSeven]).1 (by decide),
   (selection_failure_atomic unlockedManager 9 500 500 0 [trackSeven]).2
     (by norm_num [LockManager.selectByPixel, selectByPixelLoop, containsPt,
       centerDistSq, unlockedManager, trackSeven, BoundingBox.center])⟩

/-- C8 counterexample: the pixel `(5,5)` lies inside the bounding
boxes of both tracks, the second track has the lower id (3 < 5), yet
`select_by_pixel` locks to the first track in list order (id 5) — the
tie is broken by list position, not by lowest track id as the claim
states. -/
theorem select_by_pixel_tiebreak_cex :
    containsPt 5 5 pixelTrackFirst ∧ containsPt 5 5 pixelTrackSecond ∧
    pixelTrackSecond.track_id < pixelTrackFirst.track_id ∧
    (unlockedManager.selectByPixel 5 5 [pixelTrackFirst, pixelTrackSecond] 0).1 = true ∧
    (unlockedManager.selectByPixel 5 5 [pixelTrackFirst, pixelTrackSecond] 0).2.locked_track_id
      = some pixelTrackFirst.track_id := by
  refine ⟨?_, ?_, ?_, ?_, ?_⟩
  · exact ⟨by norm_num [pixelTrackFirst], by norm_num [pixelTrackFirst],
      by norm_num [pixelTrackFirst], by norm_num [pixelTrackFirst]⟩
  · exact ⟨by norm_num [pixelTrackSecond], by norm_num [pixelTrackSecond],
      by norm_num [pixelTrackSecond], by norm_num [pixelTrackSecond]⟩
  · norm_num [pixelTrackFirst, pixelTrackSecond]
  · norm_num [LockManager.selectByPixel, selectByPixelLoop, containsPt, centerDistSq,
      BoundingBox.center, LockManager.lockToTrack, unlockedManager,
      pixelTrackFirst, pixelTrackSecond]
  · norm_num [LockManager.selectByPixel, selectByPixelLoop, containsPt, centerDistSq,
      BoundingBox.center, LockManager.lockToTrack, unlockedManager,
      pixelTrackFirst, pixelTrackSecond]

/-- C8 amended: for any pixel and track list, `select_by_pixel` locks
to the first track in list order whose bbox contains the pixel
(provided `max_pixel_distance` is nonnegative); when no box contains
it, a successful call locks to the earliest track of globally minimal
center distance, that distance being within `max_pixel_distance`
(stated on squared distances, which order as the Euclidean ones);
whenever a candidate within the threshold exists the call succeeds;
and a failed call leaves the lock state exactly unchanged. -/
theorem select_by_pixel_characterization (lm : LockManager) (u v t : ℚ)
    (tracks : List Track) :
    (∀ tr, tracks.find? (fun tr => decide (containsPt u v tr)) = some tr →
      0 ≤ lm.config.max_pixel_distance →
      lm.selectByPixel u v tracks t = (true, lm.lockToTrack tr t)) ∧
    ((∀ tr ∈ tracks, ¬ containsPt u v tr) →
      (lm.selectByPixel u v tracks t).1 = true →
      ∃ tr pre suf, tracks = pre ++ tr :: suf ∧
        (lm.selectByPixel u v tracks t).2 = lm.lockToTrack tr t ∧
        0 ≤ lm.config.max_pixel_distance ∧
        centerDistSq u v tr ≤ lm.config.max_pixel_distance ^ 2 ∧
        (∀ tr' ∈ tracks, centerDistSq u v tr ≤ centerDistSq u v tr') ∧
        (∀ tr' ∈ pre, centerDistSq u v tr < centerDistSq u v tr')) ∧
    ((∀ tr ∈ tracks, ¬ containsPt u v tr) →
      0 ≤ lm.config.max_pixel_distance →
      (∃ tr ∈ tracks, centerDistSq u v tr ≤ lm.config.max_pixel_distance ^ 2) →
      (lm.selectByPixel u v tracks t).1 = true) ∧
    ((lm.selectByPixel u v tracks t).1 = false →
      (lm.selectByPixel u v tracks t).2 = lm) := by
  refine ⟨?_, ?_, ?_, ?_⟩
  · intro tr hfind hmax
    cases tracks with
    | nil => simp at hfind
    | cons hd tl =>
      have hloop := selectByPixelLoop_containing u v (hd :: tl) none tr hfind
      simp only [LockManager.selectByPixel, List.isEmpty_cons, Bool.false_eq_true,
        if_false, hloop]
      rw [if_pos ⟨hmax, by positivity⟩]
  · intro hnc hres
    cases tracks with
    | nil => simp [LockManager.selectByPixel] at hres
    | cons hd tl =>
      obtain ⟨b', db', hloop, heq, hglob, pre, suf, happ, hpre⟩ :=
        selectByPixelLoop_first u v hd tl hnc
      simp only [LockManager.selectByPixel, List.isEmpty_cons, Bool.false_eq_true,
        if_false, hloop] at hres ⊢
      split_ifs at hres ⊢ with hthr
      · refine ⟨b', pre, suf, happ, rfl, hthr.1, ?_, ?_, ?_⟩
        · rw [← heq]
          exact hthr.2
        · intro tr' htr'
          rw [← heq]
          exact hglob tr' htr'
        · intro tr' htr'
          rw [← heq]
          exact hpre tr' htr'
  · intro hnc hmax hex
    cases tracks with
    | nil =>
      obtain ⟨tr0, htr0, _⟩ := hex
      simp at htr0
    | cons hd tl =>
      obtain ⟨tr0, htr0, hq⟩ := hex
      obtain ⟨b', db', hloop, heq, hglob, _, _, _, _⟩ :=
        selectByPixelLoop_first u v hd tl hnc
      simp only [LockManager.selectByPixel, List.isEmpty_cons, Bool.false_eq_true,
        if_false, hloop]
      rw [if_pos ⟨hmax, le_trans (hglob tr0 htr0) hq⟩]
  · intro h
    by_cases he : tracks.isEmpty
    · simp [LockManager.selectByPixel, he]
    · cases hl : selectByPixelLoop u v tracks none with
      | none => simp [LockManager.selectByPixel, he, hl]
      | some p =>
        obtain ⟨bt, bd⟩ := p
        simp only [LockManager.selectByPixel, he, hl, if_false, Bool.false_eq_true] at h ⊢
        split_ifs at h ⊢ with hc
        all_goals simp_all

/-- Witness for C8's amended statement: a single containing track is
selected and locked. -/
theorem select_by_pixel_characterization_witness :
    unlockedManager.selectByPixel 5 5 [pixelTrackFirst] 0
      = (true, unlockedManager.lockToTrack pixelTrackFirst 0) :=
  (select_by_pixel_characterization unlockedManager 5 5 0 [pixelTrackFirst]).1
    pixelTrackFirst
    (by rw [List.find?_cons_of_pos _ (by norm_num [containsPt, pixelTrackFirst])])
    (by norm_num [unlockedManager])

end VisionStack
